import Mathlib

/-!
Shallow embedding of `Commodity_Trends.py`.

Timestamps are modelled as integer day numbers on the proleptic Gregorian
timeline (day 0 = 1970-01-01), observation values as exact rationals.
Results of floating-point operations that can produce IEEE special values
are modelled by the wrapper types `FlQ` (exact rational payload) and `Fl`
(real payload, for the square-root and power based statistics).
Python exceptions (`ZeroDivisionError` from `1 / years`, fetch failures,
`pandas.DataFrame` shape errors) are modelled with `Except`.
-/

namespace CommodityTrends

/-- A Python exception, at the granularity the script distinguishes:
a fetch failure raised by the FRED client, a `ZeroDivisionError`, or a
`ValueError` from `pandas.DataFrame` construction. -/
inductive PyError where
  | fetch
  | zeroDivision
  | valueError

/-- A double whose finite values are exact rationals, together with the
IEEE special values NaN, +inf, -inf. -/
inductive FlQ where
  | num (q : ℚ)
  | nan
  | inf
  | ninf
deriving DecidableEq

/-- A double whose finite values are real numbers (used for the
square-root and power based statistics), together with the IEEE special
values NaN, +inf, -inf. -/
inductive Fl where
  | num (x : ℝ)
  | nan
  | inf
  | ninf

/-- IEEE division of two finite doubles carrying exact rational values:
`a / 0` is NaN when `a = 0` and a signed infinity otherwise (numpy
scalar division warns but does not raise). -/
def divQ (a b : ℚ) : FlQ :=
  if b = 0 then (if a = 0 then .nan else if 0 < a then .inf else .ninf) else .num (a / b)

/-- IEEE multiplication of a double by a finite rational constant. -/
def mulQ : FlQ → ℚ → FlQ
  | .num q, c => .num (q * c)
  | .nan, _ => .nan
  | .inf, c => if 0 < c then .inf else if c < 0 then .ninf else .nan
  | .ninf, c => if 0 < c then .ninf else if c < 0 then .inf else .nan

/-- Rounding a rational to 2 decimal places, `round(x, 2)`. -/
def round2Q (q : ℚ) : ℚ := (round (100 * q) : ℤ) / 100

/-- Rounding a double to 2 decimal places: finite values round, the IEEE
special values pass through unchanged. -/
def roundFQ : FlQ → FlQ
  | .num q => .num (round2Q q)
  | .nan => .nan
  | .inf => .inf
  | .ninf => .ninf

/-- Rounding a real to 2 decimal places. -/
noncomputable def round2R (x : ℝ) : ℝ := (round (100 * x) : ℤ) / 100

/-- Rounding a real-payload double to 2 decimal places: finite values
round, the IEEE special values pass through unchanged. -/
noncomputable def roundF : Fl → Fl
  | .num x => .num (round2R x)
  | .nan => .nan
  | .inf => .inf
  | .ninf => .ninf

/-- Square root of a double with exact rational payload, as `numpy`
computes it: NaN on negative inputs and on NaN, +inf on +inf. -/
noncomputable def sqrtQ : FlQ → Fl
  | .num q => if q < 0 then .nan else .num (Real.sqrt q)
  | .nan => .nan
  | .inf => .inf
  | .ninf => .nan

/-- Multiplication of a real-payload double by a positive finite constant
(the script multiplies only by `100` and by `sqrt 12`): the signs of
infinities are preserved and NaN propagates. -/
noncomputable def mulPos : Fl → ℝ → Fl
  | .num x, c => .num (x * c)
  | .nan, _ => .nan
  | .inf, _ => .inf
  | .ninf, _ => .ninf

/-- Subtraction of a finite constant from a real-payload double (the
script subtracts only `1`): infinities and NaN pass through. -/
noncomputable def subC : Fl → ℝ → Fl
  | .num x, c => .num (x - c)
  | .nan, _ => .nan
  | .inf, _ => .inf
  | .ninf, _ => .ninf

/-- Power of two finite doubles with exact rational values, as `numpy`
scalar `**` computes it: real power for a positive base, the usual
conventions at base 0, an exact integer power for a negative base with an
integral exponent, and NaN for a negative base with a fractional exponent
(numpy warns and yields NaN instead of a complex number). -/
noncomputable def powQ (b ex : ℚ) : Fl :=
  if 0 < b then .num ((b : ℝ) ^ ((ex : ℚ) : ℝ))
  else if b = 0 then (if 0 < ex then .num 0 else if ex = 0 then .num 1 else .inf)
  else if ex.den = 1 then .num (((b ^ ex.num : ℚ) : ℝ))
  else .nan

/-- Day number of a proleptic Gregorian calendar date, with day 0 at
1970-01-01 (the standard days-from-civil algorithm); this is the timeline
on which `datetime` subtraction measures `.days`. -/
def daysFromCivil (y m d : ℕ) : ℤ :=
  let y' := if m ≤ 2 then y - 1 else y
  let era := y' / 400
  let yoe := y' - era * 400
  let mp := (m + 9) % 12
  let doy := (153 * mp + 2) / 5 + d - 1
  let doe := yoe * 365 + yoe / 4 - yoe / 100 + doy
  (era * 146097 + doe : ℤ) - 719468

/-- `get_presidency_dates`: the two hardcoded term windows, as pairs of
day numbers of `datetime(2017,1,20)`, `datetime(2021,1,20)` and
`datetime(2025,1,20)`. -/
def get_presidency_dates : List (String × (ℤ × ℤ)) :=
  [("Trump", (daysFromCivil 2017 1 20, daysFromCivil 2021 1 20)),
   ("Biden", (daysFromCivil 2021 1 20, daysFromCivil 2025 1 20))]

/-- The first term window (`dates["Trump"]`). -/
def trumpWindow : ℤ × ℤ := (get_presidency_dates.getD 0 ("", (0, 0))).2

/-- The second term window (`dates["Biden"]`). -/
def bidenWindow : ℤ × ℤ := (get_presidency_dates.getD 1 ("", (0, 0))).2

/-- Ordering of observations by timestamp, the key used by
`data.sort_index()`. -/
def byTime (p q : ℤ × ℚ) : Prop := p.1 ≤ q.1

instance : DecidableRel byTime := fun p q => inferInstanceAs (Decidable (p.1 ≤ q.1))

instance : IsTotal (ℤ × ℚ) byTime := ⟨fun p q => le_total p.1 q.1⟩

instance : IsTrans (ℤ × ℚ) byTime := ⟨fun _ _ _ h1 h2 => le_trans h1 h2⟩

/-- `.dropna()`: observations whose value is missing are removed, the
rest keep their timestamp and value in order. -/
def dropna (raw : List (ℤ × Option ℚ)) : List (ℤ × ℚ) :=
  raw.filterMap (fun p => p.2.map (fun v => (p.1, v)))

/-- `fetch_fred_data`: fetch the raw series from the FRED client
(modelled as the function `getSeries`, which may raise), drop missing
observations, and sort by timestamp. -/
def fetch_fred_data (getSeries : String → Except PyError (List (ℤ × Option ℚ)))
    (series_id : String) : Except PyError (List (ℤ × ℚ)) :=
  (getSeries series_id).map (fun raw => List.insertionSort byTime (dropna raw))

/-- The window filter of `compute_metrics`, line 31:
`series[(series.index >= start_date) & (series.index <= end_date)]`. -/
def windowSubset (series : List (ℤ × ℚ)) (start_date end_date : ℤ) : List (ℤ × ℚ) :=
  series.filter (fun p => decide (start_date ≤ p.1) && decide (p.1 ≤ end_date))

/-- The values of the window-restricted subset, in order. -/
def valsOf (series : List (ℤ × ℚ)) (start_date end_date : ℤ) : List ℚ :=
  (windowSubset series start_date end_date).map Prod.snd

/-- `start = subset.iloc[0]` (0 is a dummy for the empty case, which
`compute_metrics` never reaches). -/
def startValue (series : List (ℤ × ℚ)) (start_date end_date : ℤ) : ℚ :=
  (valsOf series start_date end_date).headD 0

/-- `end = subset.iloc[-1]` (0 is a dummy for the empty case, which
`compute_metrics` never reaches). -/
def endValue (series : List (ℤ × ℚ)) (start_date end_date : ℤ) : ℚ :=
  (valsOf series start_date end_date).getLastD 0

/-- `avg = subset.mean()`: the sum of the values over their count. -/
def avgValue (series : List (ℤ × ℚ)) (start_date end_date : ℤ) : ℚ :=
  (valsOf series start_date end_date).sum / ((valsOf series start_date end_date).length : ℚ)

/-- Median of a list of rationals as `pandas` computes it: sort, take the
middle element for an odd count, the mean of the two middle elements for
an even count (the default 0 is a dummy for the empty case, which
`compute_metrics` never reaches). -/
def medianQ (vals : List ℚ) : ℚ :=
  let s := List.insertionSort (· ≤ ·) vals
  if s.length % 2 = 1 then s.getD (s.length / 2) 0
  else (s.getD (s.length / 2 - 1) 0 + s.getD (s.length / 2) 0) / 2

/-- `med = subset.median()`. -/
def medValue (series : List (ℤ × ℚ)) (start_date end_date : ℤ) : ℚ :=
  medianQ (valsOf series start_date end_date)

/-- `std_dev = subset.std()`: the sample standard deviation, the sum of
squared deviations from the mean over `n - 1` followed by a square root;
for a single observation the 0/0 quotient is NaN, as in `pandas`. -/
noncomputable def stdValue (series : List (ℤ × ℚ)) (start_date end_date : ℤ) : Fl :=
  sqrtQ (divQ (((valsOf series start_date end_date).map
      (fun x => (x - avgValue series start_date end_date) ^ 2)).sum)
    (((valsOf series start_date end_date).length : ℚ) - 1))

/-- `max_val = subset.max()` (0 is a dummy for the empty case, which
`compute_metrics` never reaches). -/
def maxValue (series : List (ℤ × ℚ)) (start_date end_date : ℤ) : ℚ :=
  match valsOf series start_date end_date with
  | [] => 0
  | x :: xs => xs.foldl max x

/-- `min_val = subset.min()` (0 is a dummy for the empty case, which
`compute_metrics` never reaches). -/
def minValue (series : List (ℤ × ℚ)) (start_date end_date : ℤ) : ℚ :=
  match valsOf series start_date end_date with
  | [] => 0
  | x :: xs => xs.foldl min x

/-- `pct_change = ((end - start) / start) * 100`, in float semantics
(`end`, `start` are numpy scalars, so `start = 0` yields an IEEE special
value, not an exception). -/
def pctValue (series : List (ℤ × ℚ)) (start_date end_date : ℤ) : FlQ :=
  mulQ (divQ (endValue series start_date end_date - startValue series start_date end_date)
    (startValue series start_date end_date)) 100

/-- `years = (end_date - start_date).days / 365.25`, measured on the
window's own bounds. -/
def yearsQ (start_date end_date : ℤ) : ℚ := ((end_date - start_date : ℤ) : ℚ) / 365.25

/-- The annualized-return expression of `compute_metrics`, line 43:
`((end / start) ** (1 / years) - 1) * 100 if start > 0 else None`.
When `start > 0` and `years = 0`, the Python expression `1 / years`
raises `ZeroDivisionError`. -/
noncomputable def annRetE (start endv years : ℚ) : Except PyError (Option Fl) :=
  if 0 < start then
    if years = 0 then .error .zeroDivision
    else .ok (some (mulPos (subC (powQ (endv / start) (1 / years)) 1) 100))
  else .ok none

/-- A Metric Row: the ten statistics `compute_metrics` returns, in the
source's list order `[start, end, avg, med, std_dev, max_val, min_val,
pct_change, ann_return, ann_volatility]`; each field is nullable
(`None` in Python). -/
structure MetricRow where
  start : Option ℚ
  endVal : Option ℚ
  avg : Option ℚ
  med : Option ℚ
  std_dev : Option Fl
  max_val : Option ℚ
  min_val : Option ℚ
  pct_change : Option FlQ
  ann_return : Option Fl
  ann_volatility : Option Fl

/-- The all-null Metric Row `[None] * 10`. -/
def nullRow : MetricRow :=
  ⟨none, none, none, none, none, none, none, none, none, none⟩

/-- `compute_metrics`: restrict the series to the window; if the subset
is empty return the all-null row; otherwise compute the ten statistics,
rounding every numeric output to 2 decimal places; the annualized-return
line may raise `ZeroDivisionError` (degenerate window with a positive
start), in which case nothing is returned. -/
noncomputable def compute_metrics (series : List (ℤ × ℚ)) (start_date end_date : ℤ) :
    Except PyError MetricRow :=
  if windowSubset series start_date end_date = [] then .ok nullRow
  else
    match annRetE (startValue series start_date end_date) (endValue series start_date end_date)
        (yearsQ start_date end_date) with
    | .error e => .error e
    | .ok ar =>
        .ok { start := some (round2Q (startValue series start_date end_date))
              endVal := some (round2Q (endValue series start_date end_date))
              avg := some (round2Q (avgValue series start_date end_date))
              med := some (round2Q (medValue series start_date end_date))
              std_dev := some (roundF (stdValue series start_date end_date))
              max_val := some (round2Q (maxValue series start_date end_date))
              min_val := some (round2Q (minValue series start_date end_date))
              pct_change := some (roundFQ (pctValue series start_date end_date))
              ann_return := ar.map roundF
              ann_volatility :=
                some (roundF (mulPos (stdValue series start_date end_date) (Real.sqrt 12))) }

/-- A cell of the summary table: a string (label or term name) or one of
the nullable numeric fields of a Metric Row. -/
inductive Cell where
  | str (s : String)
  | q (v : Option ℚ)
  | fq (v : Option FlQ)
  | f (v : Option Fl)

/-- The ten statistics of a Metric Row as table cells, in the source's
list order. -/
def MetricRow.toCells (r : MetricRow) : List Cell :=
  [.q r.start, .q r.endVal, .q r.avg, .q r.med, .f r.std_dev, .q r.max_val,
   .q r.min_val, .fq r.pct_change, .f r.ann_return, .f r.ann_volatility]

/-- The fixed column names of the summary table, lines 95-99. -/
def summary_columns : List String :=
  ["Metric", "Term", "Start", "End", "Average", "Median", "Std Dev", "Max", "Min",
   "% Change", "Annualized Return (%)", "Annualized Volatility"]

/-- A pandas DataFrame, reduced to what the script uses: column names and
row-oriented data. -/
structure DataFrame where
  columns : List String
  rows : List (List Cell)

/-- `pd.DataFrame(results, columns=columns)`: raises a `ValueError` when
some row's length differs from the number of columns. -/
def mkDataFrame (results : List (List Cell)) (columns : List String) :
    Except PyError DataFrame :=
  if results.all (fun r => r.length = columns.length) then .ok ⟨columns, results⟩
  else .error .valueError

/-- The body of the per-label `try` block of `detailed_value_summary`:
fetch the series, compute the metrics of both term windows; any raised
exception aborts the label before it appends anything. -/
noncomputable def labelResult (getSeries : String → Except PyError (List (ℤ × Option ℚ)))
    (series_id : String) : Except PyError (MetricRow × MetricRow) := do
  let data ← fetch_fred_data getSeries series_id
  let trump_stats ← compute_metrics data trumpWindow.1 trumpWindow.2
  let biden_stats ← compute_metrics data bidenWindow.1 bidenWindow.2
  pure (trump_stats, biden_stats)

/-- Whether a label survives its `try` block. -/
noncomputable def labelOk (getSeries : String → Except PyError (List (ℤ × Option ℚ)))
    (series_id : String) : Bool :=
  match labelResult getSeries series_id with
  | .ok _ => true
  | .error _ => false

/-- The rows a single label contributes: its first-term row then its
second-term row on success, nothing when its `try` block raised. -/
noncomputable def labelRows (getSeries : String → Except PyError (List (ℤ × Option ℚ)))
    (p : String × String) : List (List Cell) :=
  match labelResult getSeries p.2 with
  | .ok (trump_stats, biden_stats) =>
      [Cell.str p.1 :: Cell.str "Trump (2017–2021)" :: trump_stats.toCells,
       Cell.str p.1 :: Cell.str "Biden (2021–2025)" :: biden_stats.toCells]
  | .error _ => []

/-- The `results` accumulator loop of `detailed_value_summary`,
lines 82-93, over the labels in input order. -/
noncomputable def summaryRows (getSeries : String → Except PyError (List (ℤ × Option ℚ))) :
    List (String × String) → List (List Cell)
  | [] => []
  | p :: rest => labelRows getSeries p ++ summaryRows getSeries rest

/-- `detailed_value_summary`: one first-term and one second-term row per
label that survives its `try` block, assembled into a DataFrame with the
fixed columns. -/
noncomputable def detailed_value_summary
    (getSeries : String → Except PyError (List (ℤ × Option ℚ)))
    (metric_dict : List (String × String)) : Except PyError DataFrame :=
  mkDataFrame (summaryRows getSeries metric_dict) summary_columns

theorem compute_metrics_nonpos (series : List (ℤ × ℚ)) (s e : ℤ)
    (h : windowSubset series s e ≠ []) (hs : startValue series s e ≤ 0) :
    compute_metrics series s e =
      .ok { start := some (round2Q (startValue series s e))
            endVal := some (round2Q (endValue series s e))
            avg := some (round2Q (avgValue series s e))
            med := some (round2Q (medValue series s e))
            std_dev := some (roundF (stdValue series s e))
            max_val := some (round2Q (maxValue series s e))
            min_val := some (round2Q (minValue series s e))
            pct_change := some (roundFQ (pctValue series s e))
            ann_return := none
            ann_volatility := some (roundF (mulPos (stdValue series s e) (Real.sqrt 12))) } := by
  rw [compute_metrics, if_neg h, annRetE, if_neg (not_lt.mpr hs)]
  rfl

theorem compute_metrics_pos (series : List (ℤ × ℚ)) (s e : ℤ)
    (h : windowSubset series s e ≠ []) (hs : 0 < startValue series s e)
    (hy : yearsQ s e ≠ 0) :
    compute_metrics series s e =
      .ok { start := some (round2Q (startValue series s e))
            endVal := some (round2Q (endValue series s e))
            avg := some (round2Q (avgValue series s e))
            med := some (round2Q (medValue series s e))
            std_dev := some (roundF (stdValue series s e))
            max_val := some (round2Q (maxValue series s e))
            min_val := some (round2Q (minValue series s e))
            pct_change := some (roundFQ (pctValue series s e))
            ann_return := some (roundF (mulPos (subC (powQ
              (endValue series s e / startValue series s e) (1 / yearsQ s e)) 1) 100))
            ann_volatility := some (roundF (mulPos (stdValue series s e) (Real.sqrt 12))) } := by
  rw [compute_metrics, if_neg h, annRetE, if_pos hs, if_neg hy]
  rfl

theorem compute_metrics_zero_years (series : List (ℤ × ℚ)) (s e : ℤ)
    (h : windowSubset series s e ≠ []) (hs : 0 < startValue series s e)
    (hy : yearsQ s e = 0) :
    compute_metrics series s e = .error .zeroDivision := by
  rw [compute_metrics, if_neg h, annRetE, if_pos hs, if_pos hy]

/-- The percent-change field of a `compute_metrics` result, `none` when
an exception was raised. -/
def pctField : Except PyError MetricRow → Option FlQ
  | .ok r => r.pct_change
  | .error _ => none

/-- C5: for every series and term window whose window-restricted subset
is empty, `compute_metrics` returns the Metric Row with all ten fields
null, and raises no exception. -/
theorem C5_empty_subset_all_null (series : List (ℤ × ℚ)) (s e : ℤ)
    (h : windowSubset series s e = []) :
    compute_metrics series s e = .ok nullRow := by
  rw [compute_metrics, if_pos h]

/-- C5 witness: a one-point series lying outside the window. -/
theorem C5_empty_subset_all_null_witness :
    windowSubset [((10 : ℤ), (3 : ℚ))] 0 5 = [] ∧
      compute_metrics [((10 : ℤ), (3 : ℚ))] 0 5 = .ok nullRow :=
  ⟨by decide, C5_empty_subset_all_null [((10 : ℤ), (3 : ℚ))] 0 5 (by decide)⟩

/-- C9: for every series and proper term window (start < end, as both
fixed term windows satisfy) whose window-restricted subset contains
exactly one observation, `compute_metrics` returns non-null start, end,
mean, median, max and min fields (each the observation's value, rounded),
while the standard-deviation and annualized-volatility fields are NaN —
the sample n−1 denominator gives a 0/0 quotient — and not null. -/
theorem C9_singleton_std_nan (series : List (ℤ × ℚ)) (s e : ℤ) (p : ℤ × ℚ)
    (hlt : s < e) (h : windowSubset series s e = [p]) :
    ∃ row, compute_metrics series s e = .ok row ∧
      row.start = some (round2Q p.2) ∧ row.endVal = some (round2Q p.2) ∧
      row.avg = some (round2Q p.2) ∧ row.med = some (round2Q p.2) ∧
      row.max_val = some (round2Q p.2) ∧ row.min_val = some (round2Q p.2) ∧
      row.std_dev = some Fl.nan ∧ row.ann_volatility = some Fl.nan := by
  have hne : windowSubset series s e ≠ [] := by rw [h]; exact List.cons_ne_nil _ _
  have hvals : valsOf series s e = [p.2] := by rw [valsOf, h]; rfl
  have h1 : startValue series s e = p.2 := by rw [startValue, hvals]; rfl
  have h2 : endValue series s e = p.2 := by rw [endValue, hvals]; rfl
  have h3 : avgValue series s e = p.2 := by rw [avgValue, hvals]; simp
  have h4 : medValue series s e = p.2 := by simp [medValue, hvals, medianQ]
  have h5 : stdValue series s e = Fl.nan := by
    simp [stdValue, hvals, h3, divQ, sqrtQ]
  have h6 : maxValue series s e = p.2 := by simp [maxValue, hvals]
  have h7 : minValue series s e = p.2 := by simp [minValue, hvals]
  have hy : yearsQ s e ≠ 0 := by
    have hpos : (0 : ℚ) < ((e - s : ℤ) : ℚ) := by
      have : (0 : ℤ) < e - s := by omega
      exact_mod_cast this
    rw [yearsQ]
    positivity
  rcases le_or_lt (startValue series s e) 0 with hs | hs
  · exact ⟨_, compute_metrics_nonpos series s e hne hs,
      by simp [h1, h2, h3, h4, h5, h6, h7, roundF, mulPos]⟩
  · exact ⟨_, compute_metrics_pos series s e hne hs hy,
      by simp [h1, h2, h3, h4, h5, h6, h7, roundF, mulPos]⟩

/-- C9 witness: a series with exactly one observation inside the window. -/
theorem C9_singleton_std_nan_witness :
    ((0 : ℤ) < 10 ∧ windowSubset [((-3 : ℤ), (7 : ℚ)), (4, 5)] 0 10 = [(4, 5)]) ∧
      (∃ row, compute_metrics [((-3 : ℤ), (7 : ℚ)), (4, 5)] 0 10 = .ok row ∧
        row.start = some (round2Q 5) ∧ row.endVal = some (round2Q 5) ∧
        row.avg = some (round2Q 5) ∧ row.med = some (round2Q 5) ∧
        row.max_val = some (round2Q 5) ∧ row.min_val = some (round2Q 5) ∧
        row.std_dev = some Fl.nan ∧ row.ann_volatility = some Fl.nan) :=
  ⟨⟨by decide, by decide⟩,
    C9_singleton_std_nan [((-3 : ℤ), (7 : ℚ)), (4, 5)] 0 10 (4, 5) (by decide) (by decide)⟩

/-- C2 counterexample: for the series with the single observation
(timestamp 0, value 0) and the window [0, 1], the first and last values
of the subset are equal (both 0), yet the percent-change field is NaN —
the float quotient 0/0 — and not 0.0 as the claim states. -/
theorem C2_counterexample :
    pctField (compute_metrics [((0 : ℤ), (0 : ℚ))] 0 1) = some FlQ.nan ∧
      FlQ.nan ≠ FlQ.num 0 := by
  constructor
  · rw [compute_metrics_nonpos [((0 : ℤ), (0 : ℚ))] 0 1 (by decide) (by decide), pctField]
    simp [pctValue, startValue, endValue, valsOf, windowSubset, divQ, mulQ, roundFQ]
  · decide

/-- C2 (amended): for every series and proper term window (start < end)
whose window-restricted subset is non-empty and whose first value equals
its last value, the percent-change field returned by `compute_metrics` is
0.0 provided that common value is nonzero; when the common value is 0 the
field is NaN (the float quotient 0/0), not 0.0. -/
theorem C2_pct_change_zero (series : List (ℤ × ℚ)) (s e : ℤ) (hlt : s < e)
    (hne : windowSubset series s e ≠ [])
    (heq : startValue series s e = endValue series s e) :
    (startValue series s e ≠ 0 →
      pctField (compute_metrics series s e) = some (FlQ.num 0)) ∧
    (startValue series s e = 0 →
      pctField (compute_metrics series s e) = some FlQ.nan) := by
  have hy : yearsQ s e ≠ 0 := by
    have hpos : (0 : ℚ) < ((e - s : ℤ) : ℚ) := by
      have : (0 : ℤ) < e - s := by omega
      exact_mod_cast this
    rw [yearsQ]
    positivity
  have hrow : pctField (compute_metrics series s e) = some (roundFQ (pctValue series s e)) := by
    rcases le_or_lt (startValue series s e) 0 with hs | hs
    · rw [compute_metrics_nonpos series s e hne hs, pctField]
    · rw [compute_metrics_pos series s e hne hs hy, pctField]
  have hsub : endValue series s e - startValue series s e = 0 := by rw [heq, sub_self]
  constructor
  · intro hnz
    rw [hrow, pctValue, hsub, divQ, if_neg hnz]
    simp [mulQ, roundFQ, round2Q]
  · intro hz
    rw [hrow, pctValue, hsub, divQ, if_pos hz]
    simp [mulQ, roundFQ]

/-- C2 witness: a two-point series whose first and last values are both 5
inside the window [0, 2]. -/
theorem C2_pct_change_zero_witness :
    ((0 : ℤ) < 2 ∧ windowSubset [((0 : ℤ), (5 : ℚ)), (1, 5)] 0 2 ≠ [] ∧
      startValue [((0 : ℤ), (5 : ℚ)), (1, 5)] 0 2 = endValue [((0 : ℤ), (5 : ℚ)), (1, 5)] 0 2 ∧
      startValue [((0 : ℤ), (5 : ℚ)), (1, 5)] 0 2 ≠ 0) ∧
    pctField (compute_metrics [((0 : ℤ), (5 : ℚ)), (1, 5)] 0 2) = some (FlQ.num 0) :=
  ⟨⟨by decide, by decide, by decide, by decide⟩,
    (C2_pct_change_zero [((0 : ℤ), (5 : ℚ)), (1, 5)] 0 2 (by decide) (by decide)
      (by decide)).1 (by decide)⟩

/-- The annualized-return field of a `compute_metrics` result, `none`
when an exception was raised. -/
def annRetField : Except PyError MetricRow → Option Fl
  | .ok r => r.ann_return
  | .error _ => none

/-- C6: for every series and proper term window (start < end, as both
fixed term windows satisfy) whose window-restricted subset is non-empty,
the annualized-return field returned by `compute_metrics` is null if and
only if the subset's first value is ≤ 0; in particular a negative start
never yields a computed result. -/
theorem C6_ann_return_null_iff (series : List (ℤ × ℚ)) (s e : ℤ) (hlt : s < e)
    (hne : windowSubset series s e ≠ []) :
    annRetField (compute_metrics series s e) = none ↔ startValue series s e ≤ 0 := by
  have hy : yearsQ s e ≠ 0 := by
    have hpos : (0 : ℚ) < ((e - s : ℤ) : ℚ) := by
      have : (0 : ℤ) < e - s := by omega
      exact_mod_cast this
    rw [yearsQ]
    positivity
  rcases le_or_lt (startValue series s e) 0 with hs | hs
  · rw [compute_metrics_nonpos series s e hne hs]
    simp [annRetField, hs]
  · rw [compute_metrics_pos series s e hne hs hy]
    simp only [annRetField]
    exact iff_of_false (by simp) (not_le.mpr hs)

/-- C6 witness: a series whose first in-window value is negative (the
annualized return is null) inside the window [0, 2]. -/
theorem C6_ann_return_null_iff_witness :
    ((0 : ℤ) < 2 ∧ windowSubset [((0 : ℤ), (-4 : ℚ)), (1, 3)] 0 2 ≠ []) ∧
      (annRetField (compute_metrics [((0 : ℤ), (-4 : ℚ)), (1, 3)] 0 2) = none ↔
        startValue [((0 : ℤ), (-4 : ℚ)), (1, 3)] 0 2 ≤ 0) :=
  ⟨⟨by decide, by decide⟩,
    C6_ann_return_null_iff [((0 : ℤ), (-4 : ℚ)), (1, 3)] 0 2 (by decide) (by decide)⟩

theorem sorted_headD_le (l : List (ℤ × ℚ)) (hs : l.Sorted byTime) :
    ∀ p ∈ l, (l.headD (0, 0)).1 ≤ p.1 := by
  cases l with
  | nil => simp
  | cons a t =>
    intro p hp
    rcases List.mem_cons.mp hp with rfl | hp'
    · simp
    · exact (List.sorted_cons.mp hs).1 p hp'

theorem sorted_le_getLastD (l : List (ℤ × ℚ)) :
    ∀ (d : ℤ × ℚ), l.Sorted byTime → ∀ p ∈ l, p.1 ≤ (l.getLastD d).1 := by
  induction l with
  | nil => intro d _ p hp; simp at hp
  | cons a t ih =>
    intro d hs p hp
    have hs' : t.Sorted byTime := (List.sorted_cons.mp hs).2
    rw [List.getLastD_cons]
    rcases List.mem_cons.mp hp with rfl | hp'
    · cases t with
      | nil => simp
      | cons b t' =>
        have hb : p.1 ≤ b.1 := (List.sorted_cons.mp hs).1 b (List.mem_cons_self _ _)
        exact le_trans hb (ih p hs' b (List.mem_cons_self _ _))
    · exact ih a hs' p hp'

theorem headD_map_snd (l : List (ℤ × ℚ)) (h : l ≠ []) :
    (l.map Prod.snd).headD 0 = (l.headD (0, 0)).2 := by
  cases l with
  | nil => exact absurd rfl h
  | cons a t => rfl

theorem getLastD_map_snd (l : List (ℤ × ℚ)) :
    ∀ (d : ℤ × ℚ) (q : ℚ), l ≠ [] → (l.map Prod.snd).getLastD q = (l.getLastD d).2 := by
  induction l with
  | nil => intro d q h; exact absurd rfl h
  | cons a t ih =>
    intro d q _
    rw [List.map_cons, List.getLastD_cons, List.getLastD_cons]
    cases t with
    | nil => rfl
    | cons b t' => exact ih a a.2 (List.cons_ne_nil _ _)

/-- C8: for every timestamp-sorted series and every term window whose
window-restricted subset is non-empty, the start field returned by
`compute_metrics` is the subset's first value and the end field its last
value, each rounded to 2 decimal places; and the subset's first (last)
observation is indeed first (last) by timestamp: every subset timestamp
lies between the two. -/
theorem C8_start_end_fields (series : List (ℤ × ℚ)) (s e : ℤ) (row : MetricRow)
    (hsorted : series.Sorted byTime) (hne : windowSubset series s e ≠ [])
    (hok : compute_metrics series s e = .ok row) :
    row.start = some (round2Q ((windowSubset series s e).headD (0, 0)).2) ∧
    row.endVal = some (round2Q ((windowSubset series s e).getLastD (0, 0)).2) ∧
    ∀ p ∈ windowSubset series s e,
      ((windowSubset series s e).headD (0, 0)).1 ≤ p.1 ∧
      p.1 ≤ ((windowSubset series s e).getLastD (0, 0)).1 := by
  have hsub : (windowSubset series s e).Sorted byTime := hsorted.filter _
  have hstart : startValue series s e = ((windowSubset series s e).headD (0, 0)).2 := by
    rw [startValue, valsOf, headD_map_snd _ hne]
  have hend : endValue series s e = ((windowSubset series s e).getLastD (0, 0)).2 := by
    rw [endValue, valsOf, getLastD_map_snd _ _ _ hne]
  have hfields : row.start = some (round2Q (startValue series s e)) ∧
      row.endVal = some (round2Q (endValue series s e)) := by
    rcases le_or_lt (startValue series s e) 0 with hs | hs
    · rw [compute_metrics_nonpos series s e hne hs] at hok
      simp only [Except.ok.injEq] at hok
      subst hok
      exact ⟨rfl, rfl⟩
    · by_cases hy : yearsQ s e = 0
      · rw [compute_metrics_zero_years series s e hne hs hy] at hok
        exact absurd hok (by simp)
      · rw [compute_metrics_pos series s e hne hs hy] at hok
        simp only [Except.ok.injEq] at hok
        subst hok
        exact ⟨rfl, rfl⟩
  refine ⟨by rw [hfields.1, hstart], by rw [hfields.2, hend], fun p hp => ?_⟩
  exact ⟨sorted_headD_le _ hsub p hp, sorted_le_getLastD _ _ hsub p hp⟩

/-- The Metric Row of the C8 witness input. -/
noncomputable def C8row : MetricRow :=
  { start := some (round2Q (startValue [((0 : ℤ), (-1 : ℚ)), (1, -2)] 0 2))
    endVal := some (round2Q (endValue [((0 : ℤ), (-1 : ℚ)), (1, -2)] 0 2))
    avg := some (round2Q (avgValue [((0 : ℤ), (-1 : ℚ)), (1, -2)] 0 2))
    med := some (round2Q (medValue [((0 : ℤ), (-1 : ℚ)), (1, -2)] 0 2))
    std_dev := some (roundF (stdValue [((0 : ℤ), (-1 : ℚ)), (1, -2)] 0 2))
    max_val := some (round2Q (maxValue [((0 : ℤ), (-1 : ℚ)), (1, -2)] 0 2))
    min_val := some (round2Q (minValue [((0 : ℤ), (-1 : ℚ)), (1, -2)] 0 2))
    pct_change := some (roundFQ (pctValue [((0 : ℤ), (-1 : ℚ)), (1, -2)] 0 2))
    ann_return := none
    ann_volatility :=
      some (roundF (mulPos (stdValue [((0 : ℤ), (-1 : ℚ)), (1, -2)] 0 2) (Real.sqrt 12))) }

/-- C8 witness: a sorted two-point series fully inside the window [0, 2],
with the first-field and last-field facts instantiated at the subset's
first observation (0, -1). -/
theorem C8_start_end_fields_witness :
    (([((0 : ℤ), (-1 : ℚ)), (1, -2)] : List (ℤ × ℚ)).Sorted byTime ∧
      windowSubset [((0 : ℤ), (-1 : ℚ)), (1, -2)] 0 2 ≠ [] ∧
      compute_metrics [((0 : ℤ), (-1 : ℚ)), (1, -2)] 0 2 = .ok C8row ∧
      ((0 : ℤ), (-1 : ℚ)) ∈ windowSubset [((0 : ℤ), (-1 : ℚ)), (1, -2)] 0 2) ∧
    (C8row.start =
        some (round2Q ((windowSubset [((0 : ℤ), (-1 : ℚ)), (1, -2)] 0 2).headD (0, 0)).2) ∧
      C8row.endVal =
        some (round2Q ((windowSubset [((0 : ℤ), (-1 : ℚ)), (1, -2)] 0 2).getLastD (0, 0)).2) ∧
      ((windowSubset [((0 : ℤ), (-1 : ℚ)), (1, -2)] 0 2).headD (0, 0)).1 ≤ (0 : ℤ) ∧
      (0 : ℤ) ≤ ((windowSubset [((0 : ℤ), (-1 : ℚ)), (1, -2)] 0 2).getLastD (0, 0)).1) := by
  have hsorted : ([((0 : ℤ), (-1 : ℚ)), (1, -2)] : List (ℤ × ℚ)).Sorted byTime := by
    simp [List.sorted_cons, byTime]
  have hok : compute_metrics [((0 : ℤ), (-1 : ℚ)), (1, -2)] 0 2 = .ok C8row :=
    compute_metrics_nonpos [((0 : ℤ), (-1 : ℚ)), (1, -2)] 0 2 (by decide) (by decide)
  have h := C8_start_end_fields [((0 : ℤ), (-1 : ℚ)), (1, -2)] 0 2 C8row hsorted
    (by decide) hok
  exact ⟨⟨hsorted, by decide, hok, by decide⟩,
    h.1, h.2.1, h.2.2 ((0 : ℤ), (-1 : ℚ)) (by decide)⟩

/-- C1: for every series and proper term window (start < end, as both
fixed term windows satisfy) whose window-restricted subset is non-empty
and whose start value is positive, the annualized-return field of
`compute_metrics` is `((end / start) ^ (1 / years) - 1) * 100` rounded to
2 decimal places, where start and end are the first and last values of
the subset and years is the difference of the window's timestamps in
days divided by 365.25. The first conjunct states this with the
float-semantics power (NaN on a negative ratio); the second states it
with real exponentiation whenever the end value is nonnegative (the only
case in which the float power is a real number). -/
theorem C1_annualized_return (series : List (ℤ × ℚ)) (s e : ℤ)
    (hlt : s < e) (hne : windowSubset series s e ≠ [])
    (hs : 0 < startValue series s e) :
    annRetField (compute_metrics series s e) =
      some (roundF (mulPos (subC (powQ
        (endValue series s e / startValue series s e) (1 / yearsQ s e)) 1) 100)) ∧
    (0 ≤ endValue series s e →
      annRetField (compute_metrics series s e) =
        some (Fl.num (round2R ((((endValue series s e : ℝ) / (startValue series s e : ℝ)) ^
          ((1 : ℝ) / (((e - s : ℤ) : ℝ) / 365.25)) - 1) * 100)))) := by
  have hdays : (0 : ℚ) < ((e - s : ℤ) : ℚ) := by
    have : (0 : ℤ) < e - s := by omega
    exact_mod_cast this
  have hy0 : (0 : ℚ) < yearsQ s e := by
    rw [yearsQ]
    positivity
  have hy : yearsQ s e ≠ 0 := ne_of_gt hy0
  have hmain := compute_metrics_pos series s e hne hs hy
  have hexp : (((1 : ℚ) / yearsQ s e : ℚ) : ℝ) = (1 : ℝ) / (((e - s : ℤ) : ℝ) / 365.25) := by
    rw [yearsQ]
    have h365 : ((365.25 : ℚ) : ℝ) = (365.25 : ℝ) := by norm_num
    push_cast [h365]
    ring
  constructor
  · rw [hmain]
    rfl
  · intro h0
    rw [hmain]
    simp only [annRetField]
    rcases h0.lt_or_eq with hpos | hzero
    · have hb : 0 < endValue series s e / startValue series s e := div_pos hpos hs
      rw [powQ, if_pos hb, subC, mulPos, roundF]
      have hbase : (((endValue series s e / startValue series s e : ℚ)) : ℝ) =
          (endValue series s e : ℝ) / (startValue series s e : ℝ) := by push_cast; ring
      rw [hbase, hexp]
    · have hb0 : endValue series s e / startValue series s e = 0 := by
        rw [← hzero]
        simp
      have hex0 : (0 : ℚ) < 1 / yearsQ s e := by positivity
      have hrexp : ((1 : ℝ) / (((e - s : ℤ) : ℝ) / 365.25)) ≠ 0 := by
        have : (0 : ℝ) < ((e - s : ℤ) : ℝ) := by exact_mod_cast hdays
        positivity
      rw [powQ, hb0, if_neg (lt_irrefl 0), if_pos rfl, if_pos hex0, subC, mulPos, roundF]
      rw [← hzero, Rat.cast_zero, zero_div, Real.zero_rpow hrexp]

/-- C1 witness: the series [(0, 1), (4, 2)] on the window [0, 1461]
(exactly 4 years, as each presidency window is). -/
theorem C1_annualized_return_witness :
    ((0 : ℤ) < 1461 ∧ windowSubset [((0 : ℤ), (1 : ℚ)), (4, 2)] 0 1461 ≠ [] ∧
      0 < startValue [((0 : ℤ), (1 : ℚ)), (4, 2)] 0 1461 ∧
      0 ≤ endValue [((0 : ℤ), (1 : ℚ)), (4, 2)] 0 1461) ∧
    annRetField (compute_metrics [((0 : ℤ), (1 : ℚ)), (4, 2)] 0 1461) =
      some (Fl.num (round2R
        ((((endValue [((0 : ℤ), (1 : ℚ)), (4, 2)] 0 1461 : ℝ) /
            (startValue [((0 : ℤ), (1 : ℚ)), (4, 2)] 0 1461 : ℝ)) ^
          ((1 : ℝ) / (((1461 - 0 : ℤ) : ℝ) / 365.25)) - 1) * 100))) :=
  ⟨⟨by decide, by decide, by decide, by decide⟩,
    (C1_annualized_return [((0 : ℤ), (1 : ℚ)), (4, 2)] 0 1461 (by decide) (by decide)
      (by decide)).2 (by decide)⟩

/-- C3 counterexample: a series with one observation exactly on the
shared boundary 2021-01-20 has that timestamp in both windows' subsets
under the `start ≤ timestamp ≤ end` filter of `compute_metrics` — the
two fixed term windows are not disjoint. -/
theorem C3_counterexample :
    windowSubset [(daysFromCivil 2021 1 20, (1 : ℚ))] trumpWindow.1 trumpWindow.2 =
      [(daysFromCivil 2021 1 20, (1 : ℚ))] ∧
    windowSubset [(daysFromCivil 2021 1 20, (1 : ℚ))] bidenWindow.1 bidenWindow.2 =
      [(daysFromCivil 2021 1 20, (1 : ℚ))] := by
  decide

/-- C3 (amended): the two fixed term windows of `get_presidency_dates`
are contiguous — the first window's end is the second window's start, and
every timestamp between the first window's start and the second window's
end falls in at least one window — but they overlap in exactly one
timestamp: a timestamp lying in both windows' subsets under the
`start ≤ timestamp ≤ end` filter of `compute_metrics` must be the shared
boundary 2021-01-20. -/
theorem C3_windows_contiguous (t : ℤ) :
    trumpWindow.2 = bidenWindow.1 ∧
    ((trumpWindow.1 ≤ t ∧ t ≤ trumpWindow.2) → (bidenWindow.1 ≤ t ∧ t ≤ bidenWindow.2) →
      t = daysFromCivil 2021 1 20) ∧
    (trumpWindow.1 ≤ t → t ≤ bidenWindow.2 →
      (trumpWindow.1 ≤ t ∧ t ≤ trumpWindow.2) ∨ (bidenWindow.1 ≤ t ∧ t ≤ bidenWindow.2)) := by
  have e1 : trumpWindow.1 = 17186 := by decide
  have e2 : trumpWindow.2 = 18647 := by decide
  have e3 : bidenWindow.1 = 18647 := by decide
  have e4 : bidenWindow.2 = 20108 := by decide
  have e5 : daysFromCivil 2021 1 20 = 18647 := by decide
  refine ⟨by rw [e2, e3], fun hT hB => ?_, fun h1 h2 => ?_⟩
  · rw [e1, e2] at hT
    rw [e3, e4] at hB
    rw [e5]
    omega
  · rw [e1] at h1
    rw [e4] at h2
    rw [e1, e2, e3, e4]
    omega

/-- C3 witness: the boundary timestamp 18647 (2021-01-20) lies in both
windows, and the amended theorem identifies it as the boundary; an
interior timestamp 17200 falls in at least one window. -/
theorem C3_windows_contiguous_witness :
    ((trumpWindow.1 ≤ 18647 ∧ (18647 : ℤ) ≤ trumpWindow.2) ∧
      (bidenWindow.1 ≤ 18647 ∧ (18647 : ℤ) ≤ bidenWindow.2) ∧
      trumpWindow.1 ≤ 17200 ∧ (17200 : ℤ) ≤ bidenWindow.2) ∧
    ((18647 : ℤ) = daysFromCivil 2021 1 20 ∧
      ((trumpWindow.1 ≤ 17200 ∧ (17200 : ℤ) ≤ trumpWindow.2) ∨
        (bidenWindow.1 ≤ 17200 ∧ (17200 : ℤ) ≤ bidenWindow.2))) :=
  ⟨⟨⟨by decide, by decide⟩, ⟨by decide, by decide⟩, by decide, by decide⟩,
    (C3_windows_contiguous 18647).2.1 ⟨by decide, by decide⟩ ⟨by decide, by decide⟩,
    (C3_windows_contiguous 17200).2.2 (by decide) (by decide)⟩

/-- A FRED backend that returns the same raw series for every
identifier. -/
def constSeries (raw : List (ℤ × Option ℚ)) :
    String → Except PyError (List (ℤ × Option ℚ)) := fun _ => .ok raw

/-- A FRED backend whose every fetch raises. -/
def failSeries : String → Except PyError (List (ℤ × Option ℚ)) := fun _ => .error .fetch

theorem dropna_fst_sublist (raw : List (ℤ × Option ℚ)) :
    ((dropna raw).map Prod.fst).Sublist (raw.map Prod.fst) := by
  induction raw with
  | nil => simp [dropna]
  | cons a t ih =>
    rcases a with ⟨ts, v⟩
    cases v with
    | none =>
      simp only [dropna, List.filterMap_cons, Option.map_none', List.map_cons]
      exact ih.cons ts
    | some q =>
      simp only [dropna, List.filterMap_cons, Option.map_some', List.map_cons]
      exact ih.cons₂ ts

/-- C4 counterexample: a raw series with a duplicated timestamp passes
through `fetch_fred_data` unchanged — the returned series does not have
strictly increasing timestamps, so uniqueness is not guaranteed by the
code. -/
theorem C4_counterexample :
    fetch_fred_data (constSeries [((0 : ℤ), some (1 : ℚ)), (0, some 2)]) "X" =
      .ok [((0 : ℤ), (1 : ℚ)), (0, 2)] ∧
    ¬ ([((0 : ℤ), (1 : ℚ)), (0, 2)] : List (ℤ × ℚ)).Pairwise (fun p q => p.1 < q.1) := by
  constructor
  · rfl
  · decide

/-- C4 (amended): for every series identifier whose fetch succeeds, the
Time Series returned by `fetch_fred_data` is sorted ascending by
timestamp and is a permutation of the raw observations with null values
removed; its timestamps are strictly increasing provided the raw series
has no duplicate timestamps (the code itself never deduplicates). -/
theorem C4_fetch_sorted_dropna (getSeries : String → Except PyError (List (ℤ × Option ℚ)))
    (sid : String) (raw : List (ℤ × Option ℚ)) (h : getSeries sid = .ok raw) :
    ∃ data, fetch_fred_data getSeries sid = .ok data ∧
      data.Sorted byTime ∧ data.Perm (dropna raw) ∧
      ((raw.map Prod.fst).Nodup → data.Pairwise (fun p q : ℤ × ℚ => p.1 < q.1)) := by
  refine ⟨List.insertionSort byTime (dropna raw), ?_, ?_, ?_, ?_⟩
  · rw [fetch_fred_data, h]
    rfl
  · exact List.sorted_insertionSort byTime _
  · exact List.perm_insertionSort byTime _
  · intro hnd
    have hperm : (List.insertionSort byTime (dropna raw)).Perm (dropna raw) :=
      List.perm_insertionSort _ _
    have hnd2 : ((dropna raw).map Prod.fst).Nodup :=
      (dropna_fst_sublist raw).nodup hnd
    have hnd3 : ((List.insertionSort byTime (dropna raw)).map Prod.fst).Nodup :=
      ((hperm.map Prod.fst).nodup_iff).mpr hnd2
    have hne' : (List.insertionSort byTime (dropna raw)).Pairwise
        (fun p q : ℤ × ℚ => p.1 ≠ q.1) := List.pairwise_map.mp hnd3
    exact ((List.sorted_insertionSort byTime (dropna raw)).and hne').imp
      (fun h' => lt_of_le_of_ne h'.1 h'.2)

/-- C4 witness: a raw series with one missing value and unordered unique
timestamps. -/
theorem C4_fetch_sorted_dropna_witness :
    constSeries [((5 : ℤ), some (2 : ℚ)), (3, none), (1, some 7)] "X" =
      .ok [((5 : ℤ), some (2 : ℚ)), (3, none), (1, some 7)] ∧
    (∃ data, fetch_fred_data (constSeries [((5 : ℤ), some (2 : ℚ)), (3, none), (1, some 7)]) "X" =
        .ok data ∧
      data.Sorted byTime ∧
      data.Perm (dropna [((5 : ℤ), some (2 : ℚ)), (3, none), (1, some 7)]) ∧
      ((([((5 : ℤ), some (2 : ℚ)), (3, none), (1, some 7)] :
          List (ℤ × Option ℚ)).map Prod.fst).Nodup →
        data.Pairwise (fun p q : ℤ × ℚ => p.1 < q.1))) :=
  ⟨rfl, C4_fetch_sorted_dropna (constSeries [((5 : ℤ), some (2 : ℚ)), (3, none), (1, some 7)])
    "X" [((5 : ℤ), some (2 : ℚ)), (3, none), (1, some 7)] rfl⟩

theorem labelRows_length (getSeries : String → Except PyError (List (ℤ × Option ℚ)))
    (p : String × String) :
    (labelRows getSeries p).length = if labelOk getSeries p.2 then 2 else 0 := by
  rw [labelRows, labelOk]
  cases labelResult getSeries p.2 with
  | error e => rfl
  | ok v => rfl

/-- C7: for every input mapping and FRED backend, the summary rows are
exactly, for each label in input order, the first-term row followed by
the second-term row when the label's fetch/compute succeeded and nothing
when it raised; consequently the row count is twice the number of
non-failing labels. -/
theorem C7_rows_per_label (getSeries : String → Except PyError (List (ℤ × Option ℚ)))
    (metric_dict : List (String × String)) :
    summaryRows getSeries metric_dict = metric_dict.flatMap (labelRows getSeries) ∧
    (summaryRows getSeries metric_dict).length =
      2 * metric_dict.countP (fun p => labelOk getSeries p.2) := by
  induction metric_dict with
  | nil => exact ⟨rfl, rfl⟩
  | cons p rest ih =>
    constructor
    · rw [summaryRows, ih.1, List.flatMap_cons]
    · rw [summaryRows, List.length_append, ih.2, labelRows_length, List.countP_cons]
      by_cases h : labelOk getSeries p.2
      · simp [h]
        ring
      · simp [h]

theorem summaryRows_length_mem (getSeries : String → Except PyError (List (ℤ × Option ℚ))) :
    ∀ (metric_dict : List (String × String)) (r : List Cell),
      r ∈ summaryRows getSeries metric_dict → r.length = 12 := by
  intro metric_dict
  induction metric_dict with
  | nil => intro r hr; simp [summaryRows] at hr
  | cons p rest ih =>
    intro r hr
    rw [summaryRows] at hr
    rcases List.mem_append.mp hr with hr' | hr'
    · rw [labelRows] at hr'
      cases hv : labelResult getSeries p.2 with
      | error e => rw [hv] at hr'; simp at hr'
      | ok v =>
        rw [hv] at hr'
        simp only [List.mem_cons, List.not_mem_nil, or_false] at hr'
        rcases hr' with rfl | rfl
        · rfl
        · rfl
    · exact ih r hr'

theorem summaryRows_nil_of_all_fail (getSeries : String → Except PyError (List (ℤ × Option ℚ))) :
    ∀ (metric_dict : List (String × String)),
      (∀ p ∈ metric_dict, labelOk getSeries p.2 = false) →
      summaryRows getSeries metric_dict = [] := by
  intro metric_dict
  induction metric_dict with
  | nil => intro _; rfl
  | cons p rest ih =>
    intro hfail
    rw [summaryRows]
    have h1 : labelRows getSeries p = [] := by
      have hp := hfail p (List.mem_cons_self _ _)
      rw [labelOk] at hp
      rw [labelRows]
      cases hv : labelResult getSeries p.2 with
      | error e => rfl
      | ok v => rw [hv] at hp; simp at hp
    rw [h1, List.nil_append]
    exact ih (fun q hq => hfail q (List.mem_cons_of_mem _ hq))

/-- C10: for every input mapping and FRED backend,
`detailed_value_summary` returns — without raising — a DataFrame whose
columns are exactly the 12 fixed names, whose rows are the summary rows
(each of width 12); when every label fails it is a zero-row table. -/
theorem C10_fixed_columns (getSeries : String → Except PyError (List (ℤ × Option ℚ)))
    (metric_dict : List (String × String)) :
    detailed_value_summary getSeries metric_dict =
      .ok ⟨summary_columns, summaryRows getSeries metric_dict⟩ ∧
    summary_columns = ["Metric", "Term", "Start", "End", "Average", "Median", "Std Dev",
      "Max", "Min", "% Change", "Annualized Return (%)", "Annualized Volatility"] ∧
    (∀ r ∈ summaryRows getSeries metric_dict, r.length = 12) ∧
    ((∀ p ∈ metric_dict, labelOk getSeries p.2 = false) →
      summaryRows getSeries metric_dict = []) := by
  refine ⟨?_, rfl, summaryRows_length_mem getSeries metric_dict,
    summaryRows_nil_of_all_fail getSeries metric_dict⟩
  rw [detailed_value_summary, mkDataFrame, if_pos]
  rw [List.all_eq_true]
  intro r hr
  simpa using summaryRows_length_mem getSeries metric_dict r hr

/-- C10 witness: a single label whose fetch always raises — the result is
the zero-row table with the fixed columns. -/
theorem C10_fixed_columns_witness :
    detailed_value_summary failSeries [("Crude Oil (WTI)", "DCOILWTICO")] =
      .ok ⟨summary_columns, summaryRows failSeries [("Crude Oil (WTI)", "DCOILWTICO")]⟩ ∧
    (∀ p ∈ [("Crude Oil (WTI)", "DCOILWTICO")], labelOk failSeries p.2 = false) ∧
    summaryRows failSeries [("Crude Oil (WTI)", "DCOILWTICO")] = [] :=
  ⟨(C10_fixed_columns failSeries [("Crude Oil (WTI)", "DCOILWTICO")]).1,
    fun _ _ => rfl,
    (C10_fixed_columns failSeries [("Crude Oil (WTI)", "DCOILWTICO")]).2.2.2
      (fun _ _ => rfl)⟩

end CommodityTrends
